import Mathlib

/-!
Shallow embedding of the four scraper entry points of this repository
(src/scripts/undetected-chrome.py, src/src/scrapers/google-search.py,
src/src/scrapers/brave-search.py, src/src/scrapers/youtube-caption-scraper.py).

Browser and page behaviour (element lookups, navigation, launch, cleanup)
is modelled as explicit environment records; each Python function is
translated into a Lean function over those records, preserving control
flow, key sets of the emitted JSON objects, and exit codes.
-/

/-- Python truthiness of an optional string: `None` and `""` are falsy. -/
def pyTruthy : Option String → Bool
  | none => false
  | some s => s ≠ ""

/-- Whether the second character list is an initial segment of the
first (structurally recursive so that concrete inputs evaluate). -/
def charListStartsWith : List Char → List Char → Bool
  | _, [] => true
  | [], _ :: _ => false
  | c :: cs, d :: ds => c == d && charListStartsWith cs ds

/-- The Python `str.startswith` test. -/
def pyStartsWith (s pre : String) : Bool :=
  charListStartsWith s.data pre.data

/-- Drop leading whitespace characters. -/
def dropLeadingWs : List Char → List Char
  | [] => []
  | c :: cs => if c.isWhitespace then dropLeadingWs cs else c :: cs

/-- The Python `str.strip()`: drop leading and trailing whitespace. -/
def pyStrip (s : String) : String :=
  ⟨(dropLeadingWs (dropLeadingWs s.data).reverse).reverse⟩

/-- JSON-ish values appearing in the result objects of the scrapers.
`segs` stands for an array of `{timestamp, text}` objects. -/
inductive JVal where
  | str (s : String)
  | nat (n : Nat)
  | bool (b : Bool)
  | null
  | segs (l : List (String × String))
  deriving DecidableEq, Repr

/-- A JSON object, as an ordered list of key/value pairs. -/
abbrev JObj := List (String × JVal)

/-- Whether the object carries the given key. -/
def JObj.hasKey (o : JObj) (k : String) : Bool :=
  o.any (fun p => p.1 == k)

/-- Look up the first value stored under the given key. -/
def JObj.get (o : JObj) (k : String) : Option JVal :=
  (o.find? (fun p => p.1 == k)).map (fun p => p.2)

/-- `None` becomes JSON `null`, any string stays a string. -/
def JVal.ofOptStr : Option String → JVal
  | none => JVal.null
  | some s => JVal.str s

/-! ## youtube-caption-scraper.py -/

/-- An exception raised between navigation and the age-gate check in
`scrape_youtube_captions` (`driver.get` can raise `TimeoutException`
via the page-load timeout, or any other exception). -/
inductive YtExc where
  | timeoutExc (msg : String)
  | otherExc (cls msg : String)
  deriving DecidableEq

/-- One `ytd-transcript-segment-renderer` element: its timestamp text,
its caption text, and whether reading it raises (such segments are
skipped by the per-segment `except` clause). -/
structure YtSegment where
  timestamp : String
  text : String
  raises : Bool
  deriving DecidableEq

/-- Environment for one run of `scrape_youtube_captions`: what the
browser/page does at each step of the source's control flow. -/
structure YtEnv where
  /-- `webdriver.Chrome`/`uc.Chrome` raises; `driver` stays `None`. -/
  launchRaises : Option String
  /-- exception raised during `driver.get` / before the age-gate check -/
  preException : Option YtExc
  /-- a `ytd-age-gate-renderer` element is present -/
  ageGate : Bool
  /-- `wait.until(movie_player)` raises `TimeoutException` -/
  playerTimeout : Bool
  /-- a transcript button is found (directly or after expanding) -/
  transcriptButton : Bool
  /-- `wait.until(transcript panel)` raises `TimeoutException` -/
  panelTimeout : Bool
  /-- the `ytd-transcript-segment-renderer` elements -/
  segments : List YtSegment
  /-- `h1.ytd-video-primary-info-renderer` text, if found -/
  videoTitle : Option String
  /-- `driver.quit()` raises in the `finally` block -/
  quitRaises : Bool

/-- Observable outcome of `scrape_youtube_captions`: the returned JSON
object plus lifecycle facts (whether a driver was opened, whether
`driver.quit()` was attempted, whether an exception escaped the call). -/
structure YtOutcome where
  result : JObj
  driverOpened : Bool
  quitAttempted : Bool
  raised : Bool

/-- The `finally` block of `scrape_youtube_captions` with the driver
open: `if driver and not interactive: driver.quit()` — the quit call is
not wrapped in try/except, so its failure escapes the function. -/
def ytFinally (interactive quitRaises : Bool) (r : JObj) : YtOutcome :=
  { result := r
    driverOpened := true
    quitAttempted := !interactive
    raised := !interactive && quitRaises }

/-- Embedding of `scrape_youtube_captions` (youtube-caption-scraper.py,
lines 40-265), returning each of the source's result dictionaries with
the exact key sets of the source. -/
def scrape_youtube_captions (env : YtEnv) (video_id language : String)
    (include_timestamps interactive : Bool) (timeout : Nat) : YtOutcome :=
  match env.launchRaises with
  | some msg =>
      { result := [("error", JVal.str ("Scraping failed: " ++ msg)),
                   ("videoId", JVal.str video_id),
                   ("exception", JVal.str "Exception")]
        driverOpened := false, quitAttempted := false, raised := false }
  | none =>
    match env.preException with
    | some (YtExc.timeoutExc msg) =>
        ytFinally interactive env.quitRaises
          [("error", JVal.str ("Timeout waiting for page elements: " ++ msg)),
           ("videoId", JVal.str video_id),
           ("timeout", JVal.nat timeout)]
    | some (YtExc.otherExc cls msg) =>
        ytFinally interactive env.quitRaises
          [("error", JVal.str ("Scraping failed: " ++ msg)),
           ("videoId", JVal.str video_id),
           ("exception", JVal.str cls)]
    | none =>
      if env.ageGate && !interactive then
        ytFinally interactive env.quitRaises
          [("error", JVal.str "Age-restricted video requires manual verification"),
           ("needsLogin", JVal.bool true),
           ("videoId", JVal.str video_id)]
      else if env.playerTimeout then
        ytFinally interactive env.quitRaises
          [("error", JVal.str "Timeout waiting for page elements: "),
           ("videoId", JVal.str video_id),
           ("timeout", JVal.nat timeout)]
      else if !env.transcriptButton then
        ytFinally interactive env.quitRaises
          [("error", JVal.str "No transcript button found - captions may not be available for this video"),
           ("videoId", JVal.str video_id),
           ("hasCaptions", JVal.bool false)]
      else if env.panelTimeout then
        ytFinally interactive env.quitRaises
          [("error", JVal.str "Timeout waiting for page elements: "),
           ("videoId", JVal.str video_id),
           ("timeout", JVal.nat timeout)]
      else if env.segments.isEmpty then
        ytFinally interactive env.quitRaises
          [("error", JVal.str "Transcript panel opened but no segments found"),
           ("videoId", JVal.str video_id),
           ("hasCaptions", JVal.bool true)]
      else
        let extracted := env.segments.filter (fun s => !s.raises)
        let full_text := String.intercalate " " (extracted.map (fun s => pyStrip s.text))
        let base : JObj :=
          [("success", JVal.bool true),
           ("videoId", JVal.str video_id),
           ("title", JVal.ofOptStr env.videoTitle),
           ("text", JVal.str full_text),
           ("captionCount", JVal.nat env.segments.length),
           ("language", JVal.str language),
           ("method", JVal.str "selenium-dom"),
           ("includesTimestamps", JVal.bool include_timestamps)]
        if include_timestamps && !extracted.isEmpty then
          ytFinally interactive env.quitRaises
            (base ++ [("segments", JVal.segs (extracted.map (fun s => (pyStrip s.timestamp, pyStrip s.text))))])
        else
          ytFinally interactive env.quitRaises base

/-- Embedding of `main` of youtube-caption-scraper.py (lines 268-291):
it prints the result and falls off the end — no `sys.exit` call at all,
so the process exits 0 whenever the scrape returns normally; an
exception escaping the scrape (only possible from the unguarded
`driver.quit()`) crashes the interpreter, which exits 1 with nothing on
stdout. Returns (stdout JSON if any, exit status). -/
def yt_main (env : YtEnv) (video_id language : String)
    (include_timestamps interactive : Bool) (timeout : Nat) : Option JObj × Nat :=
  let o := scrape_youtube_captions env video_id language include_timestamps interactive timeout
  if o.raised then (none, 1) else (some o.result, 0)

/-! ## scripts/undetected-chrome.py -/

/-- One `a[href]` element: its `href` attribute (which `get_attribute`
may report as `null`), its text, and whether reading it raises (then
the per-link `except: pass` skips it). -/
structure LinkEl where
  href : Option String
  text : String
  raises : Bool
  deriving DecidableEq

/-- One `img[src]` element, analogous to `LinkEl`. -/
structure ImgEl where
  src : Option String
  alt : Option String
  raises : Bool
  deriving DecidableEq

/-- State when the Cloudflare-challenge wait loop exits: how many polls
were performed, the elapsed wall-clock seconds, whether a challenge was
ever detected (`cloudflare_detected`), and whether the loop exited via
`break` after observing a clear page. -/
structure LoopResult where
  polls : Nat
  elapsed : Nat
  detected : Bool
  clearedObserved : Bool
  deriving DecidableEq, Repr

/-- The challenge wait loop of `scrape_with_undetected_chrome`
(undetected-chrome.py, lines 153-181):

    while (time.time() - challenge_start) < max_challenge_wait:  # 30s
        <poll: read body text and title, compute is_challenge>
        if is_challenge: cloudflare_detected = True; time.sleep(2)
        else: break

Time is modelled discretely: each poll is instantaneous and each
`time.sleep(2)` advances the clock by 2 seconds. `isCh n` tells whether
the n-th poll (0-based) sees challenge indicators. -/
def challengeLoop (isCh : Nat → Bool) (polls elapsed : Nat) (detected : Bool) : LoopResult :=
  if elapsed < 30 then
    if isCh polls then
      challengeLoop isCh (polls + 1) (elapsed + 2) true
    else
      { polls := polls + 1, elapsed := elapsed, detected := detected, clearedObserved := true }
  else
    { polls := polls, elapsed := elapsed, detected := detected, clearedObserved := false }
termination_by 30 - elapsed
decreasing_by omega

/-- Configuration read from stdin by undetected-chrome.py. -/
structure UcConfig where
  url : String
  timeoutMs : Nat
  waitAfterLoadMs : Nat
  headless : Bool
  screenshot : Bool
  deriving DecidableEq

/-- Page/browser behaviour for one run of
`scrape_with_undetected_chrome`. -/
structure UcPage where
  /-- `uc.Chrome(...)` raises; `driver` stays `None` -/
  launchError : Option String
  /-- `driver.get(url)` raises (page-load timeout or other) -/
  navError : Option String
  /-- challenge indicators seen at the n-th poll of the wait loop -/
  isChallenge : Nat → Bool
  title : String
  bodyText : String
  html : String
  /-- elements matching `a[href]` in DOM order -/
  links : List LinkEl
  /-- elements matching `img[src]` in DOM order -/
  images : List ImgEl
  screenshotData : String
  /-- `driver.quit()` raises in the `finally` block (swallowed there) -/
  quitRaises : Bool

/-- The JSON result of undetected-chrome.py, as a structure (the
success result carries all fields; the failure result is
`{success: false, error}`). -/
structure UcResult where
  success : Bool
  error : Option String
  title : String
  text : String
  html : String
  links : List (String × String)
  images : List (String × String)
  screenshot : Option String
  deriving DecidableEq

/-- The `{'success': False, 'error': msg}` object of the top-level
`except` clause (undetected-chrome.py, lines 273-278). -/
def UcResult.failure (msg : String) : UcResult :=
  { success := false, error := some msg, title := "", text := "", html := ""
    links := [], images := [], screenshot := none }

/-- Link extraction (undetected-chrome.py, lines 210-223): the first
100 `a[href]` elements, keeping `{href, text}` when `href` is truthy
and does not start with `#`; per-link failures are skipped. -/
def extractLinks (els : List LinkEl) : List (String × String) :=
  (els.take 100).filterMap (fun l =>
    if l.raises then none
    else
      match l.href with
      | none => none
      | some h => if h ≠ "" && !(pyStartsWith h "#") then some (h, pyStrip l.text) else none)

/-- Image extraction (undetected-chrome.py, lines 225-238): the first
50 `img[src]` elements, keeping `{src, alt}` when `src` is truthy;
a `null` alt becomes `""`; per-image failures are skipped. -/
def extractImages (els : List ImgEl) : List (String × String) :=
  (els.take 50).filterMap (fun im =>
    if im.raises then none
    else
      match im.src with
      | none => none
      | some s => if s ≠ "" then some (s, im.alt.getD "") else none)

/-- Observable outcome of `scrape_with_undetected_chrome`: the result
object, whether a driver was opened, whether `driver.quit()` was
attempted in the `finally` block, whether the extraction phase was
reached, whether the post-loop challenge warning was printed
(line 183-185), and whether an exception escaped the function. -/
structure UcOutcome where
  result : UcResult
  driverOpened : Bool
  quitAttempted : Bool
  extractionAttempted : Bool
  challengeWarning : Bool
  raised : Bool

/-- Embedding of `scrape_with_undetected_chrome`
(undetected-chrome.py, lines 103-285). Launch and navigation failures
are caught by the top-level `except` and produce the failure result;
the `finally` block attempts `driver.quit()` whenever a driver was
opened and swallows its failure (`try: driver.quit() except: pass`),
so no exception ever escapes. -/
def scrape_with_undetected_chrome (config : UcConfig) (page : UcPage) : UcOutcome :=
  match page.launchError with
  | some msg =>
      { result := UcResult.failure msg, driverOpened := false, quitAttempted := false
        extractionAttempted := false, challengeWarning := false, raised := false }
  | none =>
    match page.navError with
    | some msg =>
        { result := UcResult.failure msg, driverOpened := true, quitAttempted := true
          extractionAttempted := false, challengeWarning := false, raised := false }
    | none =>
        let loopRes := challengeLoop page.isChallenge 0 0 false
        { result :=
            { success := true
              error := none
              title := page.title
              text := page.bodyText
              html := page.html
              links := extractLinks page.links
              images := extractImages page.images
              screenshot := if config.screenshot then some page.screenshotData else none }
          driverOpened := true, quitAttempted := true, extractionAttempted := true
          challengeWarning := loopRes.detected, raised := false }

/-- What arrived on stdin for undetected-chrome.py's `main`. -/
inductive StdinInput where
  | empty
  | malformed (msg : String)
  | valid (config : UcConfig)

/-- Embedding of `main` of undetected-chrome.py (lines 288-326):
empty and malformed input emit a `success: false` object and exit 1;
otherwise the scrape result is emitted and the exit status is 0 exactly
when `result.get('success')` is truthy. Returns (stdout JSON, exit). -/
def uc_main (inp : StdinInput) (page : UcPage) : UcResult × Nat :=
  match inp with
  | StdinInput.empty => (UcResult.failure "No input provided", 1)
  | StdinInput.malformed msg => (UcResult.failure ("Invalid JSON input: " ++ msg), 1)
  | StdinInput.valid config =>
      let out := scrape_with_undetected_chrome config page
      (out.result, if out.result.success then 0 else 1)

/-! ## src/scrapers/google-search.py -/

/-- One Google result container element: the text of its `h3` child if
one exists, its first `a` child (and that child's `href` attribute) if
one exists, the text of its first snippet child
(`div[data-sncf="1"], div.VwiC3b, div.s`) if one exists, and whether
processing the element raises some other exception (then the
per-element `except` logs a warning and continues). -/
structure GElem where
  h3 : Option String
  a : Option (Option String)
  snippetEl : Option String
  raises : Bool
  deriving DecidableEq

/-- One assembled Google search record (`{title, url, snippet}`). -/
structure GRecord where
  title : String
  url : String
  snippet : String
  deriving DecidableEq

/-- Title-role resolution (google-search.py, lines 272-276): the
stripped `h3` text; `NoSuchElementException` means no value. -/
def googleTitleRes (e : GElem) : Option String :=
  e.h3.map pyStrip

/-- Url-role resolution (google-search.py, lines 279-287): the first
`a` child's `href`, accepted only when truthy and starting with
`http`, then stripped. -/
def googleUrlRes (e : GElem) : Option String :=
  match e.a with
  | none => none
  | some none => none
  | some (some u) => if u ≠ "" && pyStartsWith u "http" then some (pyStrip u) else none

/-- Snippet-role resolution (google-search.py, lines 290-292): the
stripped text of the first matching snippet element, if any. -/
def googleSnippetRes (e : GElem) : Option String :=
  e.snippetEl.map pyStrip

/-- Per-element record extraction (google-search.py, lines 267-299):
skip on a missing title (`continue`), skip on a missing/invalid url
(`continue`), and on a missing snippet element fall back to
`result['snippet'] = result['title']`. -/
def extractGoogleRecord (e : GElem) : Option GRecord :=
  if e.raises then none
  else
    match googleTitleRes e with
    | none => none
    | some t =>
      match googleUrlRes e with
      | none => none
      | some u => some { title := t, url := u, snippet := (googleSnippetRes e).getD t }

/-- The element loop of `extract_search_results` (google-search.py,
lines 267-307): walk the containers in DOM order, append each
successfully extracted record, and `break` once `len(results) >=
max_results`. -/
def google_loop : List GElem → Nat → List GRecord → List GRecord
  | [], _, acc => acc
  | e :: rest, max_results, acc =>
    match extractGoogleRecord e with
    | none => google_loop rest max_results acc
    | some r =>
      if acc.length + 1 ≥ max_results then acc ++ [r]
      else google_loop rest max_results (acc ++ [r])

/-- The combined container selector tried first (line 259). -/
def googlePrimarySelector : String := "div.g, div[data-sokoban-container], div.Gx5Zad"

/-- The alternative container selector tried second (line 263). -/
def googleFallbackSelector : String := "div[jscontroller]"

/-- Google SERP DOM for one run: whether the readyState wait times out,
and the containers each of the two selector strategies would yield. -/
structure GDom where
  readyTimeout : Bool
  primary : List GElem
  fallback : List GElem

/-- Container strategy selection (google-search.py, lines 258-263):
the fallback selector is evaluated only if the primary selector
yielded no elements. Also returns the list of selectors evaluated. -/
def googleContainers (dom : GDom) : List GElem × List String :=
  if dom.primary.isEmpty then
    (dom.fallback, [googlePrimarySelector, googleFallbackSelector])
  else
    (dom.primary, [googlePrimarySelector])

/-- Embedding of `extract_search_results` (google-search.py, lines
221-316): on a readyState timeout return `[]`; otherwise slice the
matched containers to `max_results * 2` and run the element loop. -/
def google_extract_search_results (dom : GDom) (max_results : Nat) : List GRecord :=
  if dom.readyTimeout then []
  else google_loop (((googleContainers dom).1).take (max_results * 2)) max_results []

/-- The stdout result object of google-search.py. -/
structure GoogleResult where
  success : Bool
  query : String
  results : List GRecord
  count : Nat
  error : Option String
  deriving DecidableEq

/-- Environment for one run of `perform_google_search`. -/
structure GEnv where
  /-- `setup_driver` raises (it re-raises after logging) -/
  setupError : Option String
  /-- `driver.get` raises -/
  navError : Option String
  dom : GDom
  /-- `driver.quit()` raises (caught and logged as a warning) -/
  quitRaises : Bool

/-- Embedding of `perform_google_search` (google-search.py, lines
318-383): setup or navigation failure gives `{success: false, error,
query}`; otherwise extraction runs and the result is
`{success: true, query, results, count}`. -/
def perform_google_search (env : GEnv) (query : String) (max_results : Nat) : GoogleResult :=
  match env.setupError with
  | some msg => { success := false, query := query, results := [], count := 0, error := some msg }
  | none =>
    match env.navError with
    | some msg => { success := false, query := query, results := [], count := 0, error := some msg }
    | none =>
      let rs := google_extract_search_results env.dom max_results
      { success := true, query := query, results := rs, count := rs.length, error := none }

/-- Exit status chosen by `main` of google-search.py (line 418):
`sys.exit(0 if result.get('success') else 1)`. -/
def google_main_exit (r : GoogleResult) : Nat :=
  if r.success then 0 else 1

/-- The stderr lines of `setup_driver` that frame the launch
(google-search.py, lines 81, 138, 214); the middle line interpolates
the proxy username (never the password) and is printed only when the
proxy is in use. Lines that interpolate no credential-derived data
are carried verbatim. -/
def setup_driver_stderr (headless use_proxy : Bool) (u p : String) : List String :=
  ["🚀 Starting undetected Chrome (headless=" ++ toString headless ++ ", proxy=" ++ toString use_proxy ++ ")..."]
  ++ (if use_proxy && u != "" && p != "" then
        ["🔒 Using Webshare proxy with embedded auth: " ++ u ++ "-rotate@p.webshare.io:80"]
      else [])
  ++ ["✅ Chrome driver initialized successfully"]

/-- The browser launch arguments assembled by `setup_driver`
(google-search.py, lines 84-137): the static flag list, the
user-agent picked from the fixed pool, and — when the proxy is in
use — the proxy-server connection string, the only place the
password reaches. -/
def setup_driver_args (headless : Bool) (ua : String) (use_proxy : Bool) (u p : String) : List String :=
  (if headless then ["--headless=new"] else [])
  ++ ["--no-sandbox", "--disable-dev-shm-usage", "--disable-gpu",
      "--disable-software-rasterizer", "--disable-extensions",
      "--disable-background-networking", "--disable-default-apps",
      "--disable-sync", "--metrics-recording-only", "--mute-audio",
      "--disable-blink-features=AutomationControlled", "--disable-infobars",
      "--disable-logging", "--disable-login-animations",
      "--disable-notifications", "--disable-web-security",
      "--ignore-certificate-errors", "--allow-running-insecure-content",
      "--user-agent=" ++ ua, "--window-size=1920,1080", "--lang=en-US"]
  ++ (if use_proxy && u != "" && p != "" then
        ["--proxy-server=http://" ++ u ++ "-rotate:" ++ p ++ "@p.webshare.io:80"]
      else [])

/-- The credential-relevant stderr lines of `main` plus `setup_driver`
(google-search.py, lines 402, 323 and `setup_driver_stderr`):
`use_proxy = bool(proxy_username and proxy_password)`, and when it is
set, line 402 prints the username. -/
def google_main_logs (u p : String) (headless : Bool) (query : String) : List String :=
  let use_proxy := u != "" && p != ""
  (if use_proxy then ["INFO: Proxy enabled with username: " ++ u] else [])
  ++ ["INFO: Starting Google search for: " ++ query]
  ++ setup_driver_stderr headless use_proxy u p

/-! ## src/scrapers/brave-search.py -/

/-- One Brave result container element. `titleEls` is aligned with the
four title candidate selectors (`a.result-header`, `h2 a`, `.title a`,
`a[href*="http"]`): for each, either no element (exception → continue)
or the element's text together with its `href` attribute. `descEls` is
aligned with the four description selectors. `raises` models an
exception escaping the per-element block (logged, `continue`). -/
structure BElem where
  titleEls : List (Option (String × Option String))
  descEls : List (Option String)
  raises : Bool
  deriving DecidableEq

/-- One assembled Brave search record. -/
structure BRecord where
  title : String
  url : String
  description : String
  deriving DecidableEq

/-- One item of the embedded JavaScript fallback's return value
(brave-search.py, lines 147-162): the JS pushes
`{title, url, description}` objects. -/
structure JsItem where
  title : String
  url : String
  description : String
  deriving DecidableEq

/-- The title/url candidate loop (brave-search.py, lines 179-188):
each present candidate overwrites `title` (stripped text) and `url`
(raw `href`); the loop breaks as soon as both are truthy. -/
def braveTitleLoop : List (Option (String × Option String)) → Option String × Option String → Option String × Option String
  | [], st => st
  | none :: rest, st => braveTitleLoop rest st
  | some (txt, href) :: rest, _ =>
    let st := (some (pyStrip txt), href)
    if pyTruthy st.1 && pyTruthy st.2 then st else braveTitleLoop rest st

/-- The description candidate loop (brave-search.py, lines 190-200):
`description` starts as `""`; each present candidate overwrites it
with stripped text and the loop breaks on the first non-empty one. -/
def braveDescLoop : List (Option String) → String → String
  | [], d => d
  | none :: rest, d => braveDescLoop rest d
  | some txt :: rest, _ =>
    let d := pyStrip txt
    if d ≠ "" then d else braveDescLoop rest d

/-- The final title/url state for one element. -/
def braveTitleUrl (e : BElem) : Option String × Option String :=
  braveTitleLoop e.titleEls (none, none)

/-- Per-element record extraction (brave-search.py, lines 173-212):
the record is appended only when both `title` and `url` are truthy
(`if title and url:`); the description may be `""`. -/
def braveExtractRecord (e : BElem) : Option BRecord :=
  if e.raises then none
  else
    let tu := braveTitleUrl e
    if pyTruthy tu.1 && pyTruthy tu.2 then
      some { title := tu.1.getD "", url := tu.2.getD "", description := braveDescLoop e.descEls "" }
    else none

/-- The DOM-element parse loop over `result_elements[:max_results]`. -/
def brave_collect (els : List BElem) (max_results : Nat) : List BRecord :=
  (els.take max_results).filterMap braveExtractRecord

/-- The JavaScript-fallback collection loop (brave-search.py, lines
164-170): `js_results[:max_results]`, keeping items whose `title` and
`url` are truthy. -/
def braveJsCollect (items : List JsItem) (max_results : Nat) : List BRecord :=
  (items.take max_results).filterMap (fun it =>
    if it.title ≠ "" && it.url ≠ "" then
      some { title := it.title, url := it.url, description := it.description }
    else none)

/-- The ordered container selector chain (brave-search.py, lines
130-135). -/
def braveSelectors : List String :=
  ["div.snippet", "div[data-type=\"web\"]", "div.result", ".snippet.fdb"]

/-- Brave SERP DOM for one run: what `find_elements` yields per
selector string, and what the embedded JS evaluation returns. -/
structure BDom where
  find : String → List BElem
  js : List JsItem

/-- The first-match selector scan (brave-search.py, lines 137-142):

    for selector in selectors:
        result_elements = driver.find_elements(By.CSS_SELECTOR, selector)
        if result_elements: break

Returns the matched elements together with the list of selectors that
were actually evaluated, in order. -/
def firstNonEmpty (find : String → List BElem) : List String → List BElem × List String
  | [] => ([], [])
  | s :: rest =>
    let els := find s
    if els.isEmpty then
      let r := firstNonEmpty find rest
      (r.1, s :: r.2)
    else (els, [s])

/-- Embedding of `extract_search_results` (brave-search.py, lines
121-217): scan the selector chain; if none matched, evaluate the
embedded JS as one more tier (recorded as `"execute_script"` in the
evaluation trace) and use its items if non-empty; otherwise parse the
matched DOM elements. Returns (records, evaluation trace). -/
def brave_extract_search_results (dom : BDom) (max_results : Nat) : List BRecord × List String :=
  let m := firstNonEmpty dom.find braveSelectors
  if m.1.isEmpty then
    if !dom.js.isEmpty then
      (braveJsCollect dom.js max_results, m.2 ++ ["execute_script"])
    else
      ([], m.2 ++ ["execute_script"])
  else
    (brave_collect m.1 max_results, m.2)

/-- The stdout result object of brave-search.py. -/
structure BraveResult where
  success : Bool
  query : String
  results : List BRecord
  count : Nat
  error : Option String
  deriving DecidableEq

/-- Environment for one run of `perform_brave_search`. -/
structure BraveEnv where
  navError : Option String
  dom : BDom
  quitRaises : Bool

/-- Embedding of `perform_brave_search` (brave-search.py, lines
219-260): navigation failure gives `{success: false, query, error,
results: []}`; otherwise extraction runs and the result is
`{success: true, query, results, count}`; the `finally` block swallows
`driver.quit()` failures. -/
def perform_brave_search (env : BraveEnv) (query : String) (max_results : Nat) : BraveResult :=
  match env.navError with
  | some msg => { success := false, query := query, results := [], count := 0, error := some msg }
  | none =>
    let rs := (brave_extract_search_results env.dom max_results).1
    { success := true, query := query, results := rs, count := rs.length, error := none }

/-- Exit status chosen by `main` of brave-search.py (lines 279-282):
`if not result['success']: sys.exit(1)`, else fall through (exit 0). -/
def brave_main_exit (r : BraveResult) : Nat :=
  if r.success then 0 else 1

/-! ## Helper lemmas -/

theorem challengeLoop_step (isCh : Nat → Bool) (p e : Nat) (d : Bool)
    (h : e < 30) (hc : isCh p = true) :
    challengeLoop isCh p e d = challengeLoop isCh (p + 1) (e + 2) true := by
  rw [challengeLoop]
  simp [h, hc]

theorem challengeLoop_clear (isCh : Nat → Bool) (p e : Nat) (d : Bool)
    (h : e < 30) (hc : isCh p = false) :
    challengeLoop isCh p e d = ⟨p + 1, e, d, true⟩ := by
  rw [challengeLoop]
  simp [h, hc]

theorem challengeLoop_stop (isCh : Nat → Bool) (p e : Nat) (d : Bool)
    (h : ¬ e < 30) :
    challengeLoop isCh p e d = ⟨p, e, d, false⟩ := by
  rw [challengeLoop]
  simp [h]

/-- With a page scripted to show the challenge on exactly the first
`k` polls (and `2k` seconds fitting the budget), the loop exits by
`break` after `k + 1` polls and `2k` elapsed seconds. -/
theorem challengeLoop_clears (k : Nat) (hk : 2 * k < 30) :
    ∀ n p, p + n = k → ∀ d : Bool,
    challengeLoop (fun m => decide (m < k)) p (2 * p) d
      = ⟨k + 1, 2 * k, d || decide (p < k), true⟩ := by
  intro n
  induction n with
  | zero =>
    intro p hp d
    have hpk : p = k := by omega
    subst hpk
    rw [challengeLoop_clear _ _ _ _ (by omega) (by simp)]
    simp
  | succ n ih =>
    intro p hp d
    have hpk : p < k := by omega
    rw [challengeLoop_step _ _ _ _ (by omega) (by simp [hpk])]
    have h2 : 2 * p + 2 = 2 * (p + 1) := by ring
    rw [h2, ih (p + 1) (by omega) true]
    simp [hpk]

/-- With a page that never clears, the loop performs 15 polls and
exits at the 30-second budget boundary with the warning flag set. -/
theorem challengeLoop_never :
    ∀ j p, p + j = 15 → ∀ d : Bool,
    challengeLoop (fun _ => true) p (2 * p) d = ⟨15, 30, d || decide (p < 15), false⟩ := by
  intro j
  induction j with
  | zero =>
    intro p hp d
    have hpk : p = 15 := by omega
    subst hpk
    rw [challengeLoop_stop _ _ _ _ (by omega)]
    simp
  | succ j ih =>
    intro p hp d
    rw [challengeLoop_step _ _ _ _ (by omega) rfl]
    have h2 : 2 * p + 2 = 2 * (p + 1) := by ring
    rw [h2, ih (p + 1) (by omega) true]
    have hlt : p < 15 := by
      omega
    simp [hlt]

/-! ## Claims -/

/-- Claim C4: the interstitial wait loop polls at a fixed 2-second
cadence within a 30-second budget. If the page reports a challenge for
exactly `k` polls and then clears (with the clearing poll inside the
budget), the loop observes the clear after `k + 1 ≥ k` poll cycles and
`2k ≤ 30` elapsed seconds. If the page never clears, the loop exits at
exactly the 30-second budget boundary with the warning flag recorded,
and the scrape proceeds to extraction without raising. -/
theorem claim_C4 (k : Nat) (hk : 2 * k < 30) (cfg : UcConfig) (page : UcPage)
    (h1 : page.launchError = none) (h2 : page.navError = none)
    (h3 : page.isChallenge = fun _ => true) :
    (challengeLoop (fun m => decide (m < k)) 0 0 false).clearedObserved = true
  ∧ (challengeLoop (fun m => decide (m < k)) 0 0 false).polls = k + 1
  ∧ k ≤ (challengeLoop (fun m => decide (m < k)) 0 0 false).polls
  ∧ (challengeLoop (fun m => decide (m < k)) 0 0 false).elapsed = 2 * k
  ∧ (challengeLoop (fun m => decide (m < k)) 0 0 false).elapsed ≤ 30
  ∧ challengeLoop (fun _ => true) 0 0 false = ⟨15, 30, true, false⟩
  ∧ (scrape_with_undetected_chrome cfg page).challengeWarning = true
  ∧ (scrape_with_undetected_chrome cfg page).extractionAttempted = true
  ∧ (scrape_with_undetected_chrome cfg page).raised = false := by
  have hcl : challengeLoop (fun m => decide (m < k)) 0 0 false
      = ⟨k + 1, 2 * k, decide (0 < k), true⟩ := by
    have h := challengeLoop_clears k hk k 0 (by omega) false
    simpa using h
  have hnv : challengeLoop (fun _ => true) 0 0 false = ⟨15, 30, true, false⟩ := by
    have h := challengeLoop_never 15 0 (by omega) false
    simpa using h
  have hscrape : (scrape_with_undetected_chrome cfg page).challengeWarning = true
      ∧ (scrape_with_undetected_chrome cfg page).extractionAttempted = true
      ∧ (scrape_with_undetected_chrome cfg page).raised = false := by
    simp [scrape_with_undetected_chrome, h1, h2, h3, hnv]
  refine ⟨by simp [hcl], by simp [hcl], ?_, by simp [hcl], ?_, hnv, hscrape.1, hscrape.2.1,
    hscrape.2.2⟩
  · simp only [hcl]
    omega
  · simp only [hcl]
    omega

/-- Witness for C4 at `k = 3` and a concrete never-clearing page. -/
theorem claim_C4_witness :
    (challengeLoop (fun m => decide (m < 3)) 0 0 false).polls = 3 + 1
  ∧ (challengeLoop (fun m => decide (m < 3)) 0 0 false).elapsed = 2 * 3
  ∧ challengeLoop (fun _ => true) 0 0 false = ⟨15, 30, true, false⟩
  ∧ (scrape_with_undetected_chrome ⟨"https://example.test", 30000, 2000, true, false⟩
      ⟨none, none, fun _ => true, "t", "b", "h", [], [], "", false⟩).challengeWarning = true := by
  have h := claim_C4 3 (by norm_num) ⟨"https://example.test", 30000, 2000, true, false⟩
    ⟨none, none, fun _ => true, "t", "b", "h", [], [], "", false⟩ rfl rfl rfl
  exact ⟨h.2.1, h.2.2.2.1, h.2.2.2.2.2.1, h.2.2.2.2.2.2.1⟩

/-- Claim C10: every result object scrape_youtube_captions can emit
either carries an `error` key and no `success` key at all (every
failure path: age restriction, missing transcript control, empty
panel, timeout, any other exception), or is the fully successful
result carrying `success: true` and no `error` key. In particular an
explicit `success: false` is never emitted by caption mode. -/
theorem claim_C10 (env : YtEnv) (video_id language : String)
    (include_timestamps interactive : Bool) (timeout : Nat) :
    (((scrape_youtube_captions env video_id language include_timestamps interactive timeout).result.hasKey "error"
        && !((scrape_youtube_captions env video_id language include_timestamps interactive timeout).result.hasKey "success"))
      || (((scrape_youtube_captions env video_id language include_timestamps interactive timeout).result.get "success"
              == some (JVal.bool true))
        && !((scrape_youtube_captions env video_id language include_timestamps interactive timeout).result.hasKey "error"))) = true := by
  obtain ⟨lr, pe, ag, pt, tb, pa, segs, vt, qr⟩ := env
  cases lr with
  | some m => rfl
  | none =>
    cases pe with
    | some e => cases e <;> rfl
    | none =>
      simp only [scrape_youtube_captions]
      repeat' split
      all_goals rfl

/-- Claim C1 (amended): the generic-page, primary-search and
secondary-search entry points exit 0 exactly when the emitted result
has `success: true` and 1 otherwise (for undetected-chrome.py this
includes empty and malformed stdin input); the caption-mode entry
point, however, never sets an exit status from the result — it prints
the result object and exits 0 whenever the scrape returns normally,
even when the result is a failure object, and exits nonzero only when
an exception escapes the scrape. -/
theorem claim_C1 :
    (∀ (inp : StdinInput) (page : UcPage),
      (uc_main inp page).2 = if (uc_main inp page).1.success then 0 else 1)
  ∧ (∀ r : GoogleResult, google_main_exit r = if r.success then 0 else 1)
  ∧ (∀ r : BraveResult, brave_main_exit r = if r.success then 0 else 1)
  ∧ (∀ (env : YtEnv) (video_id language : String) (include_timestamps interactive : Bool)
        (timeout : Nat),
      (yt_main env video_id language include_timestamps interactive timeout).2
        = if (scrape_youtube_captions env video_id language include_timestamps interactive timeout).raised
          then 1 else 0) := by
  refine ⟨?_, fun r => rfl, fun r => rfl, ?_⟩
  · intro inp page
    cases inp <;> rfl
  · intro env video_id language include_timestamps interactive timeout
    cases h : (scrape_youtube_captions env video_id language include_timestamps interactive timeout).raised <;>
      simp [yt_main, h]

/-- Counterexample for C1 as stated: with no transcript button found,
caption mode emits a result object that has no `success` key (so
`success == true` fails), yet the process exits 0, not 1. -/
theorem claim_C1_counterexample :
    ((scrape_youtube_captions ⟨none, none, false, false, false, false, [], none, false⟩
        "dQw4w9WgXcQ" "en" false false 30).result.hasKey "success" = false)
  ∧ ((yt_main ⟨none, none, false, false, false, false, [], none, false⟩
        "dQw4w9WgXcQ" "en" false false 30).2 = 0) := by
  decide

/-- Claim C5 (amended): the generic-page scraper attempts
`driver.quit()` exactly when a driver was opened and swallows any
cleanup failure, so it never raises; the caption scraper attempts the
quit only when a driver was opened and the run is non-interactive, and
because the quit is not wrapped in try/except, a cleanup failure there
escapes the call instead of being swallowed. -/
theorem claim_C5 :
    (∀ (cfg : UcConfig) (page : UcPage),
      (scrape_with_undetected_chrome cfg page).raised = false)
  ∧ (∀ (cfg : UcConfig) (page : UcPage),
      (scrape_with_undetected_chrome cfg page).quitAttempted
        = (scrape_with_undetected_chrome cfg page).driverOpened)
  ∧ (∀ (env : YtEnv) (video_id language : String) (include_timestamps interactive : Bool)
        (timeout : Nat),
      (scrape_youtube_captions env video_id language include_timestamps interactive timeout).quitAttempted
        = ((scrape_youtube_captions env video_id language include_timestamps interactive timeout).driverOpened
            && !interactive))
  ∧ (∀ (env : YtEnv) (video_id language : String) (include_timestamps interactive : Bool)
        (timeout : Nat),
      (scrape_youtube_captions env video_id language include_timestamps interactive timeout).raised
        = ((scrape_youtube_captions env video_id language include_timestamps interactive timeout).driverOpened
            && (!interactive && env.quitRaises))) := by
  refine ⟨?_, ?_, ?_, ?_⟩
  · intro cfg page
    obtain ⟨le, ne, ich, ti, bo, ht, ln, im, sc, qr⟩ := page
    cases le with
    | some m => rfl
    | none => cases ne with
      | some m => rfl
      | none => rfl
  · intro cfg page
    obtain ⟨le, ne, ich, ti, bo, ht, ln, im, sc, qr⟩ := page
    cases le with
    | some m => rfl
    | none => cases ne with
      | some m => rfl
      | none => rfl
  · intro env video_id language include_timestamps interactive timeout
    obtain ⟨lr, pe, ag, pt, tb, pa, segs, vt, qr⟩ := env
    cases lr with
    | some m => rfl
    | none =>
      cases pe with
      | some e => cases e <;> rfl
      | none =>
        simp only [scrape_youtube_captions]
        repeat' split
        all_goals rfl
  · intro env video_id language include_timestamps interactive timeout
    obtain ⟨lr, pe, ag, pt, tb, pa, segs, vt, qr⟩ := env
    cases lr with
    | some m => rfl
    | none =>
      cases pe with
      | some e => cases e <;> rfl
      | none =>
        simp only [scrape_youtube_captions]
        repeat' split
        all_goals rfl

/-- Counterexample for C5 as stated: on a fully successful
non-interactive caption run whose `driver.quit()` fails, the cleanup
failure escapes `scrape_youtube_captions` (the quit is not wrapped in
try/except), so "closing never throws" is false; moreover in
interactive mode the close is never attempted at all even though a
driver was opened. -/
theorem claim_C5_counterexample :
    ((scrape_youtube_captions
        ⟨none, none, false, false, true, false, [⟨"0:00", "hello world", false⟩], some "T", true⟩
        "vid123" "en" false false 30).raised = true)
  ∧ ((scrape_youtube_captions
        ⟨none, none, false, false, true, false, [⟨"0:00", "hello world", false⟩], some "T", false⟩
        "vid123" "en" false true 30).driverOpened = true)
  ∧ ((scrape_youtube_captions
        ⟨none, none, false, false, true, false, [⟨"0:00", "hello world", false⟩], some "T", false⟩
        "vid123" "en" false true 30).quitAttempted = false) := by
  decide

/-- Claim C6 (amended): when navigation fails (for example by
exceeding the page-load timeout), the top-level `except` of
`scrape_with_undetected_chrome` still reports a result — with
`success: false` and the exception message as its diagnostic — and the
`finally` block still closes the session without raising; but no
extraction attempt is made against whatever content loaded: the
exception aborts the run before the extraction phase. -/
theorem claim_C6 (cfg : UcConfig) (page : UcPage) (msg : String)
    (h1 : page.launchError = none) (h2 : page.navError = some msg) :
    (scrape_with_undetected_chrome cfg page).result.success = false
  ∧ (scrape_with_undetected_chrome cfg page).result.error = some msg
  ∧ (scrape_with_undetected_chrome cfg page).quitAttempted = true
  ∧ (scrape_with_undetected_chrome cfg page).raised = false
  ∧ (scrape_with_undetected_chrome cfg page).extractionAttempted = false := by
  simp [scrape_with_undetected_chrome, h1, h2, UcResult.failure]

/-- Witness for C6 at a concrete page whose navigation times out. -/
theorem claim_C6_witness :
    (scrape_with_undetected_chrome ⟨"https://example.test", 30000, 2000, true, false⟩
      ⟨none, some "timeout: Timed out receiving message from renderer", fun _ => false,
       "", "", "", [], [], "", false⟩).result.success = false
  ∧ (scrape_with_undetected_chrome ⟨"https://example.test", 30000, 2000, true, false⟩
      ⟨none, some "timeout: Timed out receiving message from renderer", fun _ => false,
       "", "", "", [], [], "", false⟩).result.error
      = some "timeout: Timed out receiving message from renderer"
  ∧ (scrape_with_undetected_chrome ⟨"https://example.test", 30000, 2000, true, false⟩
      ⟨none, some "timeout: Timed out receiving message from renderer", fun _ => false,
       "", "", "", [], [], "", false⟩).quitAttempted = true
  ∧ (scrape_with_undetected_chrome ⟨"https://example.test", 30000, 2000, true, false⟩
      ⟨none, some "timeout: Timed out receiving message from renderer", fun _ => false,
       "", "", "", [], [], "", false⟩).raised = false
  ∧ (scrape_with_undetected_chrome ⟨"https://example.test", 30000, 2000, true, false⟩
      ⟨none, some "timeout: Timed out receiving message from renderer", fun _ => false,
       "", "", "", [], [], "", false⟩).extractionAttempted = false := by
  exact claim_C6 ⟨"https://example.test", 30000, 2000, true, false⟩
    ⟨none, some "timeout: Timed out receiving message from renderer", fun _ => false,
     "", "", "", [], [], "", false⟩
    "timeout: Timed out receiving message from renderer" rfl rfl

/-- Counterexample for C6 as stated: with a navigation failure (page
load timeout), the run reports a failure result but the extraction
phase is never reached, contradicting "an extraction attempt is still
made against whatever content loaded". -/
theorem claim_C6_counterexample :
    ((scrape_with_undetected_chrome ⟨"https://example.org", 30000, 2000, true, false⟩
        ⟨none, some "Message: timed out", fun _ => false, "Partial Title", "partial body",
         "<html><body>loaded before the timeout</body></html>",
         [⟨some "https://example.org/kept", "kept", false⟩], [], "", false⟩).extractionAttempted
      = false)
  ∧ ((scrape_with_undetected_chrome ⟨"https://example.org", 30000, 2000, true, false⟩
        ⟨none, some "Message: timed out", fun _ => false, "Partial Title", "partial body",
         "<html><body>loaded before the timeout</body></html>",
         [⟨some "https://example.org/kept", "kept", false⟩], [], "", false⟩).result.links = []) := by
  exact ⟨rfl, rfl⟩

/-- Claim C9: generic-page extraction caps the output at 100 links and
50 images, never emits a link whose href starts with the fragment
marker, and on Scenario A — `{url, headless: true, screenshot: false}`
against a static body with two non-fragment links, one fragment-only
`#` link and one image — yields `success: true`, 2 links and 1 image. -/
theorem claim_C9 :
    (∀ els : List LinkEl, (extractLinks els).length ≤ 100)
  ∧ (∀ els : List ImgEl, (extractImages els).length ≤ 50)
  ∧ (∀ els : List LinkEl, (extractLinks els).all (fun l => !(pyStartsWith l.1 "#")) = true)
  ∧ ((scrape_with_undetected_chrome ⟨"https://example.test", 30000, 2000, true, false⟩
        ⟨none, none, fun _ => false, "Example Domain", "body text", "<html></html>",
         [⟨some "https://example.test/a", "first link", false⟩,
          ⟨some "https://example.test/b", "second link", false⟩,
          ⟨some "#", "back to top", false⟩],
         [⟨some "https://example.test/logo.png", some "logo", false⟩],
         "", false⟩).result.success = true)
  ∧ ((scrape_with_undetected_chrome ⟨"https://example.test", 30000, 2000, true, false⟩
        ⟨none, none, fun _ => false, "Example Domain", "body text", "<html></html>",
         [⟨some "https://example.test/a", "first link", false⟩,
          ⟨some "https://example.test/b", "second link", false⟩,
          ⟨some "#", "back to top", false⟩],
         [⟨some "https://example.test/logo.png", some "logo", false⟩],
         "", false⟩).result.links.length = 2)
  ∧ ((scrape_with_undetected_chrome ⟨"https://example.test", 30000, 2000, true, false⟩
        ⟨none, none, fun _ => false, "Example Domain", "body text", "<html></html>",
         [⟨some "https://example.test/a", "first link", false⟩,
          ⟨some "https://example.test/b", "second link", false⟩,
          ⟨some "#", "back to top", false⟩],
         [⟨some "https://example.test/logo.png", some "logo", false⟩],
         "", false⟩).result.images.length = 1) := by
  refine ⟨?_, ?_, ?_, by decide, by decide, by decide⟩
  · intro els
    refine le_trans (List.length_filterMap_le _ _) ?_
    rw [List.length_take]
    exact Nat.min_le_left _ _
  · intro els
    refine le_trans (List.length_filterMap_le _ _) ?_
    rw [List.length_take]
    exact Nat.min_le_left _ _
  · intro els
    rw [List.all_eq_true]
    intro l hl
    obtain ⟨a, ha, hfa⟩ := List.mem_filterMap.mp hl
    by_cases hr : a.raises
    · simp [hr] at hfa
    · simp only [hr] at hfa
      cases hh : a.href with
      | none => rw [hh] at hfa; simp at hfa
      | some h =>
        rw [hh] at hfa
        simp only [Bool.if_false_left] at hfa
        by_cases hc : h ≠ "" && !(pyStartsWith h "#")
        · rw [if_pos hc] at hfa
          obtain ⟨hne, hns⟩ := Bool.and_eq_true_iff.mp hc
          cases hfa
          simpa using hns
        · rw [if_neg hc] at hfa
          exact absurd hfa (by simp)

/-- If the selectors before position `i` all yield no elements and the
selector at position `i` yields some, the scan stops at `i`: it
evaluates exactly the selectors up to and including position `i` and
returns that selector's elements. -/
theorem firstNonEmpty_first_match (find : String → List BElem) :
    ∀ (sels : List String) (i : Nat), i < sels.length →
      (∀ j, j < i → find (sels.getD j "") = []) →
      find (sels.getD i "") ≠ [] →
      firstNonEmpty find sels = (find (sels.getD i ""), sels.take (i + 1)) := by
  intro sels
  induction sels with
  | nil =>
    intro i hi
    simp at hi
  | cons s rest ih =>
    intro i hi hprev hcur
    cases i with
    | zero =>
      rw [List.getD_cons_zero] at hcur
      have hne : (find s).isEmpty = false := by
        cases hfs : find s with
        | nil => exact absurd hfs hcur
        | cons a l => rfl
      simp [firstNonEmpty, hne, List.getD_cons_zero]
    | succ i =>
      have h0 : find s = [] := by
        have h := hprev 0 (Nat.succ_pos i)
        rwa [List.getD_cons_zero] at h
      have hprev' : ∀ j, j < i → find (rest.getD j "") = [] := by
        intro j hj
        have h := hprev (j + 1) (by omega)
        rwa [List.getD_cons_succ] at h
      have hcur' : find (rest.getD i "") ≠ [] := by
        rwa [List.getD_cons_succ] at hcur
      have hi' : i < rest.length := by
        simpa using hi
      have hrec := ih i hi' hprev' hcur'
      simp [firstNonEmpty, h0, hrec, List.getD_cons_succ]

/-- Claim C2: extraction strategies form an ordered chain and the
first match wins. For any selector chain and DOM, if the selectors of
the strategies before position `i` yield no elements and strategy
`i`'s container selector yields at least one, the scan evaluates
exactly the selectors up to position `i` — no later selector (and in
brave-search.py not even the embedded-script tier) is ever evaluated,
and the matched strategy's elements are used with no merging; in
google-search.py, the fallback container selector is evaluated only
when the primary selector yields no elements. -/
theorem claim_C2 :
    (∀ (find : String → List BElem) (sels : List String) (i : Nat),
      i < sels.length →
      (∀ j, j < i → find (sels.getD j "") = []) →
      find (sels.getD i "") ≠ [] →
      firstNonEmpty find sels = (find (sels.getD i ""), sels.take (i + 1)))
  ∧ (∀ (dom : BDom) (max_results i : Nat),
      i < braveSelectors.length →
      (∀ j, j < i → dom.find (braveSelectors.getD j "") = []) →
      dom.find (braveSelectors.getD i "") ≠ [] →
      (brave_extract_search_results dom max_results).2 = braveSelectors.take (i + 1)
        ∧ (brave_extract_search_results dom max_results).1
            = brave_collect (dom.find (braveSelectors.getD i "")) max_results)
  ∧ (∀ dom : GDom, dom.primary ≠ [] →
      googleContainers dom = (dom.primary, [googlePrimarySelector])) := by
  refine ⟨fun find => firstNonEmpty_first_match find, ?_, ?_⟩
  · intro dom max_results i hi hprev hcur
    have hm := firstNonEmpty_first_match dom.find braveSelectors i hi hprev hcur
    have hne : (dom.find (braveSelectors.getD i "")).isEmpty = false := by
      cases hfs : dom.find (braveSelectors.getD i "") with
      | nil => exact absurd hfs hcur
      | cons a l => rfl
    constructor
    · simp only [brave_extract_search_results, hm, hne]
      simp
    · simp only [brave_extract_search_results, hm, hne]
      simp
  · intro dom hne
    have h : dom.primary.isEmpty = false := by
      cases hfs : dom.primary with
      | nil => exact absurd hfs hne
      | cons a l => rfl
    simp [googleContainers, h]

/-- Witness for C2: a DOM where only the second brave selector
matches; the scan evaluates exactly the first two selectors, and the
google fallback is skipped when the primary strategy matches. -/
theorem claim_C2_witness :
    firstNonEmpty
        (fun s => if s = "div[data-type=\"web\"]" then [⟨[], [], false⟩] else [])
        braveSelectors
      = ([⟨[], [], false⟩], ["div.snippet", "div[data-type=\"web\"]"])
  ∧ googleContainers ⟨false, [⟨some "t", some (some "http://a"), none, false⟩], []⟩
      = ([⟨some "t", some (some "http://a"), none, false⟩], [googlePrimarySelector]) := by
  constructor
  · have h := claim_C2.1
      (fun s => if s = "div[data-type=\"web\"]" then [⟨[], [], false⟩] else [])
      braveSelectors 1 (by decide)
      (by
        intro j hj
        have hj0 : j = 0 := by omega
        subst hj0
        decide)
      (by decide)
    rw [h]
    decide
  · exact claim_C2.2.2 ⟨false, [⟨some "t", some (some "http://a"), none, false⟩], []⟩
      (by decide)

/-- Every record the Google element loop emits beyond its accumulator
comes from a container element via a successful full extraction. -/
theorem google_loop_sub (els : List GElem) (max_results : Nat) :
    ∀ (acc : List GRecord) (r : GRecord), r ∈ google_loop els max_results acc →
      r ∈ acc ∨ ∃ e, e ∈ els ∧ extractGoogleRecord e = some r := by
  induction els with
  | nil =>
    intro acc r h
    exact Or.inl h
  | cons e rest ih =>
    intro acc r h
    simp only [google_loop] at h
    cases hext : extractGoogleRecord e with
    | none =>
      rw [hext] at h
      rcases ih acc r h with h' | ⟨x, hx, hxe⟩
      · exact Or.inl h'
      · exact Or.inr ⟨x, List.mem_cons_of_mem e hx, hxe⟩
    | some r' =>
      rw [hext] at h
      simp only at h
      split at h
      · rcases List.mem_append.mp h with h' | h'
        · exact Or.inl h'
        · have hr : r = r' := by simpa using h'
          subst hr
          exact Or.inr ⟨e, List.mem_cons_self e rest, hext⟩
      · rcases ih (acc ++ [r']) r h with h' | ⟨x, hx, hxe⟩
        · rcases List.mem_append.mp h' with h'' | h''
          · exact Or.inl h''
          · have hr : r = r' := by simpa using h''
            subst hr
            exact Or.inr ⟨e, List.mem_cons_self e rest, hext⟩
        · exact Or.inr ⟨x, List.mem_cons_of_mem e hx, hxe⟩

/-- Claim C3: a record whose required role (Title or Url) failed to
resolve is dropped before assembly and never surfaced. In
google-search.py a missing title or url makes the per-element
extraction yield nothing, and everything the loop assembles comes from
an element whose full extraction succeeded (hence has both roles); in
brave-search.py a record is appended only when both the title and the
url resolved truthy, for both the DOM tier and the script tier. -/
theorem claim_C3 :
    (∀ e : GElem, googleTitleRes e = none → extractGoogleRecord e = none)
  ∧ (∀ e : GElem, googleUrlRes e = none → extractGoogleRecord e = none)
  ∧ (∀ (els : List GElem) (max_results : Nat) (r : GRecord),
      r ∈ google_loop els max_results [] →
      ∃ e, e ∈ els ∧ extractGoogleRecord e = some r)
  ∧ (∀ e : BElem,
      (pyTruthy (braveTitleUrl e).1 = false ∨ pyTruthy (braveTitleUrl e).2 = false) →
      braveExtractRecord e = none)
  ∧ (∀ (els : List BElem) (max_results : Nat) (r : BRecord),
      r ∈ brave_collect els max_results →
      ∃ e, e ∈ els ∧ braveExtractRecord e = some r)
  ∧ (∀ (items : List JsItem) (max_results : Nat) (r : BRecord),
      r ∈ braveJsCollect items max_results → r.title ≠ "" ∧ r.url ≠ "") := by
  refine ⟨?_, ?_, ?_, ?_, ?_, ?_⟩
  · intro e h
    simp [extractGoogleRecord, h]
  · intro e h
    cases ht : googleTitleRes e <;> simp [extractGoogleRecord, h, ht]
  · intro els max_results r h
    rcases google_loop_sub els max_results [] r h with h' | h'
    · exact absurd h' (List.not_mem_nil r)
    · exact h'
  · intro e h
    rcases h with h | h <;> by_cases hr : e.raises <;>
      simp [braveExtractRecord, hr, h]
  · intro els max_results r h
    obtain ⟨a, ha, hfa⟩ := List.mem_filterMap.mp h
    exact ⟨a, List.mem_of_mem_take ha, hfa⟩
  · intro items max_results r h
    obtain ⟨a, ha, hfa⟩ := List.mem_filterMap.mp h
    by_cases hc : a.title ≠ "" && a.url ≠ ""
    · rw [if_pos hc] at hfa
      obtain ⟨h1, h2⟩ := Bool.and_eq_true_iff.mp hc
      cases hfa
      constructor
      · simpa using h1
      · simpa using h2
    · rw [if_neg hc] at hfa
      exact absurd hfa (by simp)

/-- Witness for C3: concrete elements whose required roles are
missing are dropped; a record collected from a concrete element list
traces back to an element whose extraction succeeded. -/
theorem claim_C3_witness :
    (extractGoogleRecord ⟨none, some (some "http://example.com"), some "a snippet", false⟩ = none)
  ∧ (extractGoogleRecord ⟨some "A Title", none, some "a snippet", false⟩ = none)
  ∧ (braveExtractRecord ⟨[some ("A Title", none)], [some "desc"], false⟩ = none)
  ∧ (∃ e, e ∈ [(⟨some "A Title", some (some "http://example.com"), none, false⟩ : GElem)]
        ∧ extractGoogleRecord e = some ⟨"A Title", "http://example.com", "A Title"⟩) := by
  refine ⟨claim_C3.1 _ rfl, claim_C3.2.1 _ rfl, claim_C3.2.2.2.1 _ (Or.inr rfl), ?_⟩
  exact claim_C3.2.2.1 [⟨some "A Title", some (some "http://example.com"), none, false⟩] 5
    ⟨"A Title", "http://example.com", "A Title"⟩ (by decide)

/-- Claim C7 (amended): the proxy password is embedded only into the
proxy-server connection string passed at browser launch and never
influences any logged output — the stderr log lines are identical for
any two (non-empty) passwords; the proxy username, however, does
appear in the logged output (see the counterexample), so only the
password enjoys the never-logged guarantee. -/
theorem claim_C7 :
    (∀ (u p pp : String) (headless : Bool) (query : String),
      (p != "") = true → (pp != "") = true →
      google_main_logs u p headless query = google_main_logs u pp headless query)
  ∧ (∀ (headless : Bool) (ua u p : String),
      (u != "") = true → (p != "") = true →
      ("--proxy-server=http://" ++ u ++ "-rotate:" ++ p ++ "@p.webshare.io:80")
        ∈ setup_driver_args headless ua true u p) := by
  constructor
  · intro u p pp headless query hp hpp
    simp [google_main_logs, setup_driver_stderr, hp, hpp]
  · intro headless ua u p hu hp
    simp only [setup_driver_args, hu, hp, Bool.and_true, Bool.true_and, if_true]
    refine List.mem_append.mpr (Or.inr ?_)
    simp

/-- Witness for C7 with concrete non-empty credentials. -/
theorem claim_C7_witness :
    google_main_logs "alice" "s3cret" true "test query"
      = google_main_logs "alice" "other-secret" true "test query"
  ∧ ("--proxy-server=http://" ++ "alice" ++ "-rotate:" ++ "s3cret" ++ "@p.webshare.io:80")
      ∈ setup_driver_args true "Mozilla/5.0 (X11; Linux x86_64)" true "alice" "s3cret" := by
  exact ⟨claim_C7.1 "alice" "s3cret" "other-secret" true "test query" rfl rfl,
    claim_C7.2 true "Mozilla/5.0 (X11; Linux x86_64)" "alice" "s3cret" rfl rfl⟩

/-- Counterexample for C7 as stated: with the proxy enabled, the
username is logged to stderr twice — by `main`
("INFO: Proxy enabled with username: ...") and by `setup_driver`
("Using Webshare proxy with embedded auth: ...") — so "the credentials
never appear in any logged output" is false for the username. -/
theorem claim_C7_counterexample :
    ("INFO: Proxy enabled with username: " ++ "alice")
        ∈ google_main_logs "alice" "s3cret" true "test query"
  ∧ ("🔒 Using Webshare proxy with embedded auth: " ++ "alice" ++ "-rotate@p.webshare.io:80")
        ∈ google_main_logs "alice" "s3cret" true "test query" := by
  decide

/-- Claim C8 (amended): when every candidate selector for the
non-required snippet/description role fails, the record is still kept;
but the failed role is not left null — google-search.py substitutes
the already-resolved title value for the snippet, and brave-search.py
leaves the description as the empty string. -/
theorem claim_C8 :
    (∀ (e : GElem) (t u : String),
      e.raises = false → googleTitleRes e = some t → googleUrlRes e = some u →
      e.snippetEl = none →
      extractGoogleRecord e = some ⟨t, u, t⟩)
  ∧ (∀ e : BElem,
      e.raises = false → pyTruthy (braveTitleUrl e).1 = true →
      pyTruthy (braveTitleUrl e).2 = true → braveDescLoop e.descEls "" = "" →
      braveExtractRecord e
        = some ⟨(braveTitleUrl e).1.getD "", (braveTitleUrl e).2.getD "", ""⟩) := by
  constructor
  · intro e t u hr ht hu hs
    simp [extractGoogleRecord, hr, ht, hu, googleSnippetRes, hs]
  · intro e hr ht hu hd
    simp [braveExtractRecord, hr, ht, hu, hd]

/-- Witness for C8: concrete elements whose snippet/description
candidates all fail still produce records. -/
theorem claim_C8_witness :
    extractGoogleRecord ⟨some "Example Site", some (some "https://example.org/page"), none, false⟩
      = some ⟨"Example Site", "https://example.org/page", "Example Site"⟩
  ∧ braveExtractRecord ⟨[some ("Some Page", some "https://example.org/b")], [none, none], false⟩
      = some ⟨"Some Page", "https://example.org/b", ""⟩ := by
  constructor
  · exact claim_C8.1 ⟨some "Example Site", some (some "https://example.org/page"), none, false⟩
      "Example Site" "https://example.org/page" rfl (by decide) (by decide) rfl
  · have h := claim_C8.2 ⟨[some ("Some Page", some "https://example.org/b")], [none, none], false⟩
      rfl (by decide) (by decide) rfl
    rw [h]
    decide

/-- Counterexample for C8 as stated: a Google container with a
resolved title and url but no snippet element yields a record whose
snippet equals the title — the role is substituted with another role's
value, not left null. -/
theorem claim_C8_counterexample :
    extractGoogleRecord ⟨some "My Title", some (some "http://example.com/a"), none, false⟩
      = some ⟨"My Title", "http://example.com/a", "My Title"⟩
  ∧ braveExtractRecord ⟨[some ("T", some "http://x")], [], false⟩
      = some ⟨"T", "http://x", ""⟩ := by
  decide
